import Mathlib

/-!
Verification of the scrape orchestration pipeline of the whatsthemetaapi
repository (an Express + Playwright web-scraping service).

The embedding follows the main server file (`src/unnamed/part_001`):
the `POST /scrape` handler, its URL validation, the browser-session
lifecycle around the try/catch, the soft content-wait, and the
`page.evaluate` extraction function.  The DOM, the browser engine and the
WHATWG URL parser are external capabilities the handler consumes; they are
modelled as explicit data (a `DOM` value, a fault oracle for each browser
stage, and a scheme-level URL parser).
-/

namespace WhatsTheMeta

/-! ## DOM model

The extraction function (`page.evaluate` callback, part_001 lines 81-128)
reads three things from the document:
* `document.querySelector('a.zone-name')` — the first element with class
  `zone-name`;
* `document.querySelector('#filter-boss-text')` — the first element with
  that id;
* `document.querySelectorAll('tr.odd, tr.even')` — all matching rows, in
  document order, each with its list of `td` cells.

A DOM is modelled by exactly that data: the text contents of the matching
elements, in document order.  `querySelector` returns the first match,
i.e. `List.head?`. -/

/-- A table row as the extractor sees it: the `textContent` of its `td`
cells, in document order. -/
structure Row where
  cells : List String
  deriving DecidableEq, Repr

/-- The portion of the document visible to the extraction function: text
contents of all elements matching each of the three selectors, in
document order. -/
structure DOM where
  zoneElems : List String
  bossElems : List String
  rows : List Row
  deriving DecidableEq, Repr

/-! ## Extraction engine (`page.evaluate` callback) -/

/-- One entry of `data.tableRows`
(`{ jobName: ..., score: ..., count: ... }`). -/
structure TableRow where
  jobName : String
  score : String
  count : String
  deriving DecidableEq, Repr

/-- The record built by the `page.evaluate` callback
(`{ zoneName, bossName, tableRows, timestamp }`).  The timestamp
(`new Date().toISOString()`) is modelled as an abstract `Nat` supplied by
the environment. -/
structure ScrapedRecord where
  zoneName : String
  bossName : String
  tableRows : List TableRow
  timestamp : Nat
  deriving DecidableEq, Repr

/-- Value of the sub-field taken from cell `i`:
`cells[i] ? cells[i].textContent.trim() : ''` (part_001 lines 116-118). -/
def cellText (cells : List String) (i : Nat) : String :=
  match cells.get? i with
  | some c => c.trim
  | none => ""

/-- The per-row mapping of part_001 lines 112-121: a row with at least 4
cells becomes `{ jobName: cells[0]..., score: cells[1]..., count:
cells[3]... }`; a shorter row becomes `null` (here `none`). -/
def extractRow (row : Row) : Option TableRow :=
  if 4 ≤ row.cells.length then
    some { jobName := cellText row.cells 0
           score := cellText row.cells 1
           count := cellText row.cells 3 }
  else
    none

/-- The `tableRows` computation (part_001 lines 111-122):
`Array.from(rows).map(row => ...).filter(row => row !== null)`.
Mapping to `Option` and discarding the `none`s is `filterMap id`. -/
def extractTableRows (rows : List Row) : List TableRow :=
  (rows.map extractRow).filterMap id

/-- The whole `page.evaluate` callback (part_001 lines 81-128).  Each
single-cardinality field takes the trimmed text of the first matching
element, or stays the initial `''` when no element matches.  (The JS
wraps each field in try/catch, but `querySelector` on these literal
selectors cannot throw, so the catch arms keep the initial value and are
unreachable in this model.) -/
def extract (dom : DOM) (timestamp : Nat) : ScrapedRecord :=
  { zoneName :=
      match dom.zoneElems.head? with
      | some t => t.trim
      | none => ""
    bossName :=
      match dom.bossElems.head? with
      | some t => t.trim
      | none => ""
    tableRows := extractTableRows dom.rows
    timestamp := timestamp }

/-- The fields a kept row carries, as a function of its cells. -/
def rowFields (row : Row) : TableRow :=
  { jobName := cellText row.cells 0
    score := cellText row.cells 1
    count := cellText row.cells 3 }

theorem extractRow_eq (row : Row) :
    extractRow row = if 4 ≤ row.cells.length then some (rowFields row) else none := rfl

/-! ## URL validation

The handler validates with `new URL(url)` (part_001 lines 31-38): the
string is accepted when the WHATWG URL constructor succeeds and rejected
(400) when it throws.  The constructor is a platform capability, not
repository code; it is modelled here at the level the handler uses it:
a string parses as an absolute URL exactly when it starts with a valid
scheme — one ALPHA followed by ALPHA / DIGIT / `+` / `-` / `.` characters
— terminated by `:`.  Crucially, the constructor accepts *every* valid
scheme (`ftp:`, `file:`, `javascript:`, ...), and the handler adds no
scheme check of its own, which is what the scheme-sensitive claims turn
on. -/

/-- An absolute URL as the validation step sees it: its (lowercased)
scheme and everything after the first colon. -/
structure ParsedURL where
  scheme : String
  rest : String
  deriving DecidableEq, Repr

/-- Characters allowed after the first character of a scheme. -/
def isSchemeChar (c : Char) : Bool :=
  c.isAlpha || c.isDigit || c == '+' || c == '-' || c == '.'

/-- Split a character list at its first `:`; `none` when there is no
colon at all. -/
def splitScheme : List Char → Option (List Char × List Char)
  | [] => none
  | c :: cs =>
    if c = ':' then some ([], cs)
    else
      match splitScheme cs with
      | some (sch, rest) => some (c :: sch, rest)
      | none => none

/-- A scheme is valid when it is nonempty, starts with a letter, and all
further characters are scheme characters. -/
def validScheme : List Char → Bool
  | [] => false
  | c :: cs => c.isAlpha && cs.all isSchemeChar

/-- Model of `new URL(url)` at the granularity the handler observes:
`some` when the constructor succeeds (the string carries a valid scheme),
`none` when it throws.  The scheme is lowercased as the URL standard
prescribes. -/
def parseURL (s : String) : Option ParsedURL :=
  match splitScheme s.toList with
  | none => none
  | some (sch, rest) =>
    if validScheme sch then
      some { scheme := String.mk (sch.map Char.toLower), rest := String.mk rest }
    else
      none

/-! ## Response bodies

JSON bodies are modelled field-by-field: `none` means the field is absent
from the object, `some v` that it is present with value `v`.  Only the
fields the handler ever writes appear. -/

/-- A JSON response body of the `/scrape` handler, field presence
included. -/
structure Body where
  success : Option Bool := none
  error : Option String := none
  message : Option String := none
  data : Option ScrapedRecord := none
  exampleField : Option String := none
  provided : Option String := none
  deriving DecidableEq, Repr

/-- An HTTP response: status code plus JSON body. -/
structure Response where
  status : Nat
  body : Body
  deriving DecidableEq, Repr

/-- Body of the 400 sent when `url` is missing or empty (part_001 lines
24-27): an `error` field and an `example` object — no `success` field. -/
def missingURLBody : Body :=
  { error := some "URL is required in request body"
    exampleField := some "https://example.com" }

/-- Body of the 400 sent when `new URL(url)` throws (part_001 lines
34-37): an `error` field and the offending `provided` string — no
`success` field. -/
def invalidURLBody (url : String) : Body :=
  { error := some "Invalid URL format"
    provided := some url }

/-- Body of the 500 sent from the catch block (part_001 lines 144-148).
The `message` field carries the runtime error text, abstracted here. -/
def scrapeFailBody : Body :=
  { success := some false
    error := some "Failed to scrape the website"
    message := some "(error message)" }

/-- Body of the 200 success response (part_001 lines 132-135). -/
def successBody (record : ScrapedRecord) : Body :=
  { success := some true
    data := some record }

/-! ## Browser session and the handler

The browser engine is external; the handler's behaviour is determined by
which of its calls fault.  Each awaited engine call is a stage; an `Env`
says which stages fault on this execution, what DOM the page presents,
and what the capture timestamp is. -/

/-- The awaited browser-engine calls of the handler, in program order.
`waitFor` is the `page.waitForSelector` inside the inner try/catch;
`close` is `browser.close()`. -/
inductive Stage where
  | launch
  | newContext
  | newPage
  | goto
  | waitFor
  | evaluate
  | close
  deriving DecidableEq, Repr

/-- One execution environment: which engine calls fault, the DOM of the
loaded page, and the capture time. -/
structure Env where
  fails : Stage → Bool
  dom : DOM
  timestamp : Nat

/-- Observable outcome of one handler execution: the response sent (or
`none` when the handler dies with an unhandled rejection and sends
nothing), how many times `chromium.launch` was invoked, whether a
browser was actually acquired (launch invoked and returned), and how
many times `browser.close` was invoked. -/
structure Outcome where
  response : Option Response
  launches : Nat
  acquired : Bool
  closes : Nat
  deriving Repr

/-- Response of the catch block (part_001 lines 137-148): it first runs
`await browser.close()` when `browser` is set; if that close call itself
faults, the catch block throws and no response is sent at all. -/
def catchResponse (env : Env) : Option Response :=
  if env.fails Stage.close then none else some ⟨500, scrapeFailBody⟩

/-- The try/catch part of the handler (part_001 lines 40-149), entered
once validation passed.  Stages run in program order; the first faulting
stage transfers control to the catch block.  A fault of `waitFor` is
swallowed by the inner try/catch (lines 70-78) and execution continues.
On the success path `browser.close()` runs before the 200 is sent; if
that close faults, the catch block closes a second time. -/
def scrapeSession (env : Env) : Outcome :=
  if env.fails Stage.launch then
    -- `browser` is still undefined: the catch block skips close.
    { response := some ⟨500, scrapeFailBody⟩, launches := 1, acquired := false, closes := 0 }
  else if env.fails Stage.newContext then
    { response := catchResponse env, launches := 1, acquired := true, closes := 1 }
  else if env.fails Stage.newPage then
    { response := catchResponse env, launches := 1, acquired := true, closes := 1 }
  else if env.fails Stage.goto then
    { response := catchResponse env, launches := 1, acquired := true, closes := 1 }
  else
    -- Inner try/catch: a `waitFor` fault is only logged, never rethrown.
    let _contentObserved := !env.fails Stage.waitFor
    if env.fails Stage.evaluate then
      { response := catchResponse env, launches := 1, acquired := true, closes := 1 }
    else if env.fails Stage.close then
      -- The success-path close faults; the catch block invokes close
      -- again, which faults too, so nothing is sent.
      { response := none, launches := 1, acquired := true, closes := 2 }
    else
      { response := some ⟨200, successBody (extract env.dom env.timestamp)⟩
        launches := 1, acquired := true, closes := 1 }

/-- The whole `POST /scrape` handler (part_001 lines 20-150) on a request
body whose `url` field is `url?` (`none` = absent).  `if (!url)` also
fires on the empty string, JavaScript's only falsy string. -/
def scrapeHandler (url? : Option String) (env : Env) : Outcome :=
  match url? with
  | none => { response := some ⟨400, missingURLBody⟩, launches := 0, acquired := false, closes := 0 }
  | some url =>
    if url = "" then
      { response := some ⟨400, missingURLBody⟩, launches := 0, acquired := false, closes := 0 }
    else
      match parseURL url with
      | none =>
        { response := some ⟨400, invalidURLBody url⟩, launches := 0, acquired := false, closes := 0 }
      | some _ => scrapeSession env

/-- An environment in which no engine call faults. -/
def okEnv (dom : DOM) (timestamp : Nat) : Env :=
  { fails := fun _ => false, dom := dom, timestamp := timestamp }

/-- An environment in which exactly one stage faults. -/
def failAt (s : Stage) (dom : DOM) (timestamp : Nat) : Env :=
  { fails := fun t => decide (t = s), dom := dom, timestamp := timestamp }

/-- A page with no matching elements at all. -/
def emptyDOM : DOM := { zoneElems := [], bossElems := [], rows := [] }

/-! ## Helper lemmas -/

theorem parseURL_empty : parseURL "" = none := rfl

theorem ne_empty_of_parseURL (url : String) (u : ParsedURL)
    (h : parseURL url = some u) : url ≠ "" := by
  intro he
  rw [he, parseURL_empty] at h
  exact Option.noConfusion h

theorem extractTableRows_eq_filter_map (rows : List Row) :
    extractTableRows rows
      = (rows.filter (fun r => 4 ≤ r.cells.length)).map rowFields := by
  induction rows with
  | nil => rfl
  | cons r rs ih =>
    simp only [extractTableRows, List.map_cons, List.filterMap_cons, List.filter_cons] at *
    rw [extractRow_eq]
    by_cases h : 4 ≤ r.cells.length
    · simp [if_pos h, decide_eq_true h, ih]
    · simp [if_neg h, decide_eq_false h, ih]

theorem scrapeSession_launches (env : Env) : (scrapeSession env).launches = 1 := by
  unfold scrapeSession
  split_ifs <;> rfl

theorem scrapeSession_acquired (env : Env)
    (h : env.fails Stage.launch = false) : (scrapeSession env).acquired = true := by
  unfold scrapeSession
  split_ifs with h1 <;> first | rfl | exact absurd h1 (by simp [h])

/-! ## Claims -/

/-- C5: a matched row with fewer than 4 `td` cells is excluded from
`tableRows`; a row with at least 4 cells is kept, each sub-field being
the trimmed text of its cell; and whenever a sub-field's cell is absent
the sub-field value is the empty string (the row itself is never dropped
for a missing optional cell once the minimum is met). -/
theorem claim_C5 (cells : List String) :
    (cells.length < 4 → extractRow ⟨cells⟩ = none)
    ∧ (4 ≤ cells.length →
        extractRow ⟨cells⟩
          = some { jobName := cellText cells 0
                   score := cellText cells 1
                   count := cellText cells 3 })
    ∧ (∀ i, cells.get? i = none → cellText cells i = "") := by
  refine ⟨fun h => ?_, fun h => ?_, fun i h => ?_⟩
  · simp only [extractRow, if_neg (Nat.not_le.mpr h)]
  · simp only [extractRow, if_pos h]
  · simp only [cellText, h]

/-- Witness for C5 at concrete rows: a 3-cell row is excluded, a 4-cell
row is kept with its trimmed cell texts. -/
theorem claim_C5_witness :
    extractRow ⟨["a", "b", "c"]⟩ = none
    ∧ extractRow ⟨["a ", "b", "c", "d"]⟩
        = some { jobName := cellText ["a ", "b", "c", "d"] 0
                 score := cellText ["a ", "b", "c", "d"] 1
                 count := cellText ["a ", "b", "c", "d"] 3 } :=
  ⟨(claim_C5 ["a", "b", "c"]).1 (by decide),
   (claim_C5 ["a ", "b", "c", "d"]).2.1 (by decide)⟩

/-- C6: `tableRows` lists the kept rows in document order — it equals
the in-order filter of the matched rows (those with at least 4 cells)
mapped through the fixed sub-field projection, and that filter is a
sublist of the matched rows, so filtering never reorders them. -/
theorem claim_C6 (rows : List Row) :
    extractTableRows rows
      = (rows.filter (fun r => 4 ≤ r.cells.length)).map rowFields
    ∧ List.Sublist (rows.filter (fun r => 4 ≤ r.cells.length)) rows :=
  ⟨extractTableRows_eq_filter_map rows, List.filter_sublist rows⟩

/-- C9: extraction is deterministic up to the timestamp — two runs over
the same DOM, at different capture times, agree on `zoneName`,
`bossName` and `tableRows`. -/
theorem claim_C9 (dom : DOM) (t1 t2 : Nat) :
    (extract dom t1).zoneName = (extract dom t2).zoneName
    ∧ (extract dom t1).bossName = (extract dom t2).bossName
    ∧ (extract dom t1).tableRows = (extract dom t2).tableRows :=
  ⟨rfl, rfl, rfl⟩

/-- C10: a kept row draws `jobName` from cell 0, `score` from cell 1 and
`count` from cell 3; cell 2 is never read — replacing it changes
nothing about the row's extraction. -/
theorem claim_C10 (cells : List String) :
    (4 ≤ cells.length →
      extractRow ⟨cells⟩
        = some { jobName := cellText cells 0
                 score := cellText cells 1
                 count := cellText cells 3 })
    ∧ (∀ v, extractRow ⟨cells.set 2 v⟩ = extractRow ⟨cells⟩) := by
  constructor
  · intro h
    simp only [extractRow, if_pos h]
  · intro v
    have hlen : (cells.set 2 v).length = cells.length := List.length_set ..
    have hc : ∀ i, i ≠ 2 → cellText (cells.set 2 v) i = cellText cells i := by
      intro i hi
      simp only [cellText, List.get?_eq_getElem?, List.getElem?_set_ne (Ne.symm hi)]
    simp only [extractRow, hlen, hc 0 (by decide), hc 1 (by decide), hc 3 (by decide)]

/-- Witness for C10: the kept-row field equations at a concrete 4-cell
row, via the theorem. -/
theorem claim_C10_witness :
    extractRow ⟨["pld", "98.3", "x", "412"]⟩
      = some { jobName := cellText ["pld", "98.3", "x", "412"] 0
               score := cellText ["pld", "98.3", "x", "412"] 1
               count := cellText ["pld", "98.3", "x", "412"] 3 } :=
  (claim_C10 ["pld", "98.3", "x", "412"]).1 (by decide)

/-- Counterexample to C1: `ftp://example.com` parses with scheme `ftp`,
which is neither `http` nor `https`, yet the handler does not answer
400 — the validation (`new URL(url)` alone, no scheme check) lets it
through, the browser is launched and a fault-free run answers 200. -/
theorem claim_C1_counterexample :
    (parseURL "ftp://example.com").map ParsedURL.scheme = some "ftp"
    ∧ ("ftp" : String) ≠ "http" ∧ ("ftp" : String) ≠ "https"
    ∧ (scrapeHandler (some "ftp://example.com") (okEnv emptyDOM 0)).response
        = some ⟨200, successBody (extract emptyDOM 0)⟩
    ∧ (scrapeHandler (some "ftp://example.com") (okEnv emptyDOM 0)).launches = 1 := by
  decide

/-- C1 amended: the validator accepts a string iff the URL constructor
parses it, with no restriction on the scheme — every string that fails
to parse is answered 400 without scraping, and every string that parses,
whatever its scheme, proceeds to the browser launch. -/
theorem claim_C1 (url : String) (env : Env) :
    (parseURL url = none →
      (∃ b, (scrapeHandler (some url) env).response = some ⟨400, b⟩)
        ∧ (scrapeHandler (some url) env).launches = 0)
    ∧ (∀ u, parseURL url = some u → (scrapeHandler (some url) env).launches = 1) := by
  constructor
  · intro h
    by_cases he : url = ""
    · subst he
      exact ⟨⟨missingURLBody, rfl⟩, rfl⟩
    · simp only [scrapeHandler, if_neg he, h]
      exact ⟨⟨invalidURLBody url, rfl⟩, trivial⟩
  · intro u hu
    have he := ne_empty_of_parseURL url u hu
    simp only [scrapeHandler, if_neg he, hu]
    exact scrapeSession_launches env

/-- Witness for C1 (amended): both directions at concrete inputs —
`not-a-url` is rejected without a launch, `ftp://x` is accepted and
launches. -/
theorem claim_C1_witness :
    (scrapeHandler (some "not-a-url") (okEnv emptyDOM 0)).launches = 0
    ∧ (scrapeHandler (some "ftp://x") (okEnv emptyDOM 0)).launches = 1 :=
  ⟨((claim_C1 "not-a-url" (okEnv emptyDOM 0)).1 (by decide)).2,
   (claim_C1 "ftp://x" (okEnv emptyDOM 0)).2 ⟨"ftp", "//x"⟩ (by decide)⟩

/-- Counterexample to C2: inject a fault at the success-path
`browser.close()` call — a fault raised after acquire and before the
response is sent.  The session was acquired, and close is invoked twice
(the faulting success-path call, then the catch block's call), not
exactly once. -/
theorem claim_C2_counterexample :
    (scrapeHandler (some "https://example.com") (failAt Stage.close emptyDOM 0)).acquired = true
    ∧ (scrapeHandler (some "https://example.com") (failAt Stage.close emptyDOM 0)).closes = 2 := by
  decide

/-- Release balance of the try/catch body when the close call itself is
fault-free. -/
theorem scrapeSession_close_balance (env : Env)
    (h : env.fails Stage.close = false) :
    ((scrapeSession env).acquired = true → (scrapeSession env).closes = 1)
    ∧ ((scrapeSession env).acquired = false → (scrapeSession env).closes = 0) := by
  unfold scrapeSession
  split_ifs with h1 h2 h3 h4 h5 h6
  · exact ⟨fun hc => by simp at hc, fun _ => rfl⟩
  · exact ⟨fun _ => rfl, fun hc => by simp at hc⟩
  · exact ⟨fun _ => rfl, fun hc => by simp at hc⟩
  · exact ⟨fun _ => rfl, fun hc => by simp at hc⟩
  · exact ⟨fun _ => rfl, fun hc => by simp at hc⟩
  · exact absurd h6 (by simp [h])
  · exact ⟨fun _ => rfl, fun hc => by simp at hc⟩

/-- C2 amended: whenever the close operation itself does not fault,
release is exact — an acquired session is closed exactly once on every
exit path (success, context/page/navigation fault, evaluation fault; the
content-wait fault is swallowed and is not an exit path), and close is
never invoked when acquisition itself failed or validation rejected the
input.  When the success-path close call itself faults, the catch block
invokes close a second time (see the counterexample). -/
theorem claim_C2 (url? : Option String) (env : Env)
    (h : env.fails Stage.close = false) :
    ((scrapeHandler url? env).acquired = true → (scrapeHandler url? env).closes = 1)
    ∧ ((scrapeHandler url? env).acquired = false → (scrapeHandler url? env).closes = 0) := by
  cases url? with
  | none => exact ⟨fun hc => by simp [scrapeHandler] at hc, fun _ => rfl⟩
  | some url =>
    by_cases he : url = ""
    · subst he
      exact ⟨fun hc => by simp [scrapeHandler] at hc, fun _ => rfl⟩
    · cases hp : parseURL url with
      | none =>
        simp only [scrapeHandler, if_neg he, hp]
        exact ⟨fun hc => by simp at hc, fun _ => trivial⟩
      | some u =>
        simp only [scrapeHandler, if_neg he, hp]
        exact scrapeSession_close_balance env h

/-- Witness for C2 (amended): a fault-free run on a valid URL acquires
and closes exactly once. -/
theorem claim_C2_witness :
    (scrapeHandler (some "https://example.com") (okEnv emptyDOM 0)).closes = 1 :=
  (claim_C2 (some "https://example.com") (okEnv emptyDOM 0) rfl).1 (by decide)

/-- Counterexample to C3: the two 400 validation responses carry an
`error` field but no `success` field at all — they are failure responses
without `success: false`. -/
theorem claim_C3_counterexample :
    (scrapeHandler none (okEnv emptyDOM 0)).response = some ⟨400, missingURLBody⟩
    ∧ missingURLBody.success = none
    ∧ (scrapeHandler (some "not-a-url") (okEnv emptyDOM 0)).response
        = some ⟨400, invalidURLBody "not-a-url"⟩
    ∧ (invalidURLBody "not-a-url").success = none := by
  decide

/-- Every response the handler can send is one of the four literal
response shapes of the source. -/
theorem scrapeHandler_response_cases (url? : Option String) (env : Env)
    (resp : Response) (h : (scrapeHandler url? env).response = some resp) :
    resp = ⟨400, missingURLBody⟩
    ∨ (∃ url, resp = ⟨400, invalidURLBody url⟩)
    ∨ resp = ⟨500, scrapeFailBody⟩
    ∨ resp = ⟨200, successBody (extract env.dom env.timestamp)⟩ := by
  cases url? with
  | none =>
    rw [show (scrapeHandler none env).response = some ⟨400, missingURLBody⟩ from rfl] at h
    exact Or.inl (Option.some.inj h).symm
  | some url =>
    by_cases he : url = ""
    · subst he
      rw [show (scrapeHandler (some "") env).response = some ⟨400, missingURLBody⟩ from rfl] at h
      exact Or.inl (Option.some.inj h).symm
    · cases hp : parseURL url with
      | none =>
        simp only [scrapeHandler, if_neg he, hp] at h
        exact Or.inr (Or.inl ⟨url, (Option.some.inj h).symm⟩)
      | some u =>
        simp only [scrapeHandler, if_neg he, hp] at h
        unfold scrapeSession catchResponse at h
        split_ifs at h <;>
          first
          | exact Option.noConfusion h
          | exact Or.inr (Or.inr (Or.inl (Option.some.inj h).symm))
          | exact Or.inr (Or.inr (Or.inr (Option.some.inj h).symm))

/-- C3 amended: the 500 scrape-failure response carries
`success: false`, and the 200 response carries `success: true`; the two
400 validation responses carry an `error` field but no `success` field
at all. -/
theorem claim_C3 (url? : Option String) (env : Env) (resp : Response)
    (h : (scrapeHandler url? env).response = some resp) :
    (resp.status = 500 → resp.body.success = some false)
    ∧ (resp.status = 400 → resp.body.success = none ∧ resp.body.error ≠ none)
    ∧ (resp.status = 200 → resp.body.success = some true) := by
  rcases scrapeHandler_response_cases url? env resp h with h1 | ⟨url, h1⟩ | h1 | h1 <;>
    subst h1 <;>
    exact ⟨fun hs => by simp [missingURLBody, invalidURLBody, scrapeFailBody, successBody] at hs ⊢,
           fun hs => by simp [missingURLBody, invalidURLBody, scrapeFailBody, successBody] at hs ⊢,
           fun hs => by simp [missingURLBody, invalidURLBody, scrapeFailBody, successBody] at hs ⊢⟩

/-- Witness for C3 (amended): the missing-URL 400 response, via the
theorem — no `success` field, an `error` field present. -/
theorem claim_C3_witness :
    missingURLBody.success = none ∧ missingURLBody.error ≠ none :=
  (claim_C3 none (okEnv emptyDOM 0) ⟨400, missingURLBody⟩ rfl).2.1 rfl

/-- C4: an input string that fails URL parsing is answered 400 with no
browser activity at all — `chromium.launch` is never invoked and no
session is acquired on that path. -/
theorem claim_C4 (url : String) (env : Env) (h : parseURL url = none) :
    (∃ b, (scrapeHandler (some url) env).response = some ⟨400, b⟩)
    ∧ (scrapeHandler (some url) env).launches = 0
    ∧ (scrapeHandler (some url) env).acquired = false := by
  by_cases he : url = ""
  · subst he
    exact ⟨⟨missingURLBody, rfl⟩, rfl, rfl⟩
  · simp only [scrapeHandler, if_neg he, h]
    exact ⟨⟨invalidURLBody url, rfl⟩, trivial, trivial⟩

/-- Witness for C4 at the concrete input `not-a-url`. -/
theorem claim_C4_witness :
    (scrapeHandler (some "not-a-url") (okEnv emptyDOM 0)).launches = 0 :=
  (claim_C4 "not-a-url" (okEnv emptyDOM 0) (by decide)).2.1

/-- C7: a content-wait fault (`waitForSelector` timing out) is soft —
with every other stage fault-free the pipeline still reaches extraction
and answers 200 with the extracted record — whereas a navigation fault
(`page.goto` timing out) is hard and is answered 500. -/
theorem claim_C7 (url : String) (u : ParsedURL) (env : Env)
    (hu : parseURL url = some u) :
    (env.fails Stage.launch = false → env.fails Stage.newContext = false →
      env.fails Stage.newPage = false → env.fails Stage.goto = false →
      env.fails Stage.waitFor = true → env.fails Stage.evaluate = false →
      env.fails Stage.close = false →
      (scrapeHandler (some url) env).response
        = some ⟨200, successBody (extract env.dom env.timestamp)⟩)
    ∧ (env.fails Stage.launch = false → env.fails Stage.newContext = false →
        env.fails Stage.newPage = false → env.fails Stage.goto = true →
        env.fails Stage.close = false →
        (scrapeHandler (some url) env).response = some ⟨500, scrapeFailBody⟩) := by
  have he := ne_empty_of_parseURL url u hu
  constructor
  · intro m1 m2 m3 m4 _ m6 m7
    simp [scrapeHandler, he, hu, scrapeSession, m1, m2, m3, m4, m6, m7]
  · intro m1 m2 m3 m4 m7
    simp [scrapeHandler, he, hu, scrapeSession, catchResponse, m1, m2, m3, m4, m7]

/-- Witness for C7: the content-wait stage faults and the run still
answers 200 with the extracted record. -/
theorem claim_C7_witness :
    (scrapeHandler (some "https://example.com") (failAt Stage.waitFor emptyDOM 0)).response
      = some ⟨200, successBody (extract emptyDOM 0)⟩ :=
  (claim_C7 "https://example.com" ⟨"https", "//example.com"⟩
      (failAt Stage.waitFor emptyDOM 0) (by decide)).1
    (by decide) (by decide) (by decide) (by decide) (by decide) (by decide) (by decide)

/-- C8: on a fault-free run of a valid URL the handler answers 200 with
`success: true` whatever the page contains; the zone and boss fields are
the trimmed text of the first element matching their selector, or the
empty string when no element matches — absence is not an error. -/
theorem claim_C8 (url : String) (u : ParsedURL) (env : Env)
    (hu : parseURL url = some u) (hok : ∀ s, env.fails s = false) :
    (scrapeHandler (some url) env).response
      = some ⟨200, successBody (extract env.dom env.timestamp)⟩
    ∧ (successBody (extract env.dom env.timestamp)).success = some true
    ∧ (env.dom.zoneElems.head? = none → (extract env.dom env.timestamp).zoneName = "")
    ∧ (∀ t, env.dom.zoneElems.head? = some t →
        (extract env.dom env.timestamp).zoneName = t.trim)
    ∧ (env.dom.bossElems.head? = none → (extract env.dom env.timestamp).bossName = "")
    ∧ (∀ t, env.dom.bossElems.head? = some t →
        (extract env.dom env.timestamp).bossName = t.trim) := by
  have he := ne_empty_of_parseURL url u hu
  refine ⟨?_, rfl, fun h => ?_, fun t h => ?_, fun h => ?_, fun t h => ?_⟩
  · simp [scrapeHandler, he, hu, scrapeSession, hok Stage.launch, hok Stage.newContext,
      hok Stage.newPage, hok Stage.goto, hok Stage.evaluate, hok Stage.close]
  · simp [extract, h]
  · simp [extract, h]
  · simp [extract, h]
  · simp [extract, h]

/-- Witness for C8: a fault-free run on a page with no zone element, no
boss element and no rows still answers 200 with the (empty-fielded)
record. -/
theorem claim_C8_witness :
    (scrapeHandler (some "https://example.com") (okEnv emptyDOM 0)).response
      = some ⟨200, successBody (extract emptyDOM 0)⟩ :=
  (claim_C8 "https://example.com" ⟨"https", "//example.com"⟩ (okEnv emptyDOM 0)
      (by decide) (fun _ => rfl)).1

end WhatsTheMeta
